import Mathlib

/-!
Verification of the spaced-repetition progress and derived-statistics engine
of the fwords backend (users/signals.py, users/views.py, users/serializers.py,
users/models.py, words/models.py), via a shallow embedding in Lean.

Entities are embedded as structures over Nat identifiers; database tables are
lists of rows; ORM filters become List.filter with boolean predicates; Python
floats in the percentage computation are idealised as exact rationals with
round-half-to-even, matching the round builtin.
-/

namespace FWords

/-- Status enum of WordsProgress (users/models.py STATUS_CHOICES). -/
inductive Status where
  | new
  | learning
  | learned
  | mastered
deriving DecidableEq, Repr

/-- Boolean test for membership in the ORM filter status__in = [learned, mastered]. -/
def Status.isLearnedOrMastered : Status → Bool
  | .learned => true
  | .mastered => true
  | _ => false

/-- DifficultyLevel text choices of words/models.py. -/
inductive DifficultyLevel where
  | beginner
  | elementary
  | intermediate
  | upper_intermediate
  | advanced
  | proficient
deriving DecidableEq, Repr, Fintype

/-- Language level enum of LanguageProgress (users/models.py LEVEL_CHOICES). -/
inductive Level where
  | A1
  | A2
  | B1
  | B2
  | C1
  | C2
deriving DecidableEq, Repr

/-- Numeric rank of a level, used only to state the order A1 < A2 < ... < C2. -/
def Level.rank : Level → Nat
  | .A1 => 0
  | .A2 => 1
  | .B1 => 2
  | .B2 => 3
  | .C1 => 4
  | .C2 => 5

/-- DIFFICULTY_TO_LEVEL_MAP of users/signals.py: cumulative eligible tiers per level. -/
def DIFFICULTY_TO_LEVEL_MAP : Level → List DifficultyLevel
  | .A1 => [.beginner]
  | .A2 => [.beginner, .elementary]
  | .B1 => [.beginner, .elementary, .intermediate]
  | .B2 => [.beginner, .elementary, .intermediate, .upper_intermediate]
  | .C1 => [.beginner, .elementary, .intermediate, .upper_intermediate, .advanced]
  | .C2 => [.beginner, .elementary, .intermediate, .upper_intermediate, .advanced, .proficient]

/-- Word catalog row (words/models.py Word): only the fields the core reads. -/
structure Word where
  id : Nat
  language : Nat
  difficulty_level : DifficultyLevel
  active : Bool
deriving DecidableEq, Repr

/-- WordsProgress row (users/models.py). Dates and datetimes are day ordinals /
timestamps embedded as integers. -/
structure WordsProgressRow where
  id : Nat
  userId : Nat
  wordId : Nat
  target_language : Nat
  status : Status
  interval : Nat
  next_review : Option Int
  review_count : Nat
  correct_count : Nat
  date_learned : Option Int
deriving DecidableEq, Repr

/-- LanguageProgress row (users/models.py): the fields the recalculator touches. -/
structure LanguageProgressRow where
  userId : Nat
  language : Nat
  level : Level
  learned_words : ℚ
  learned_words_count : Nat
deriving DecidableEq, Repr

/-- Database state seen by the core: word catalog plus the two progress tables. -/
structure Store where
  words : List Word
  wordsProgress : List WordsProgressRow
  languageProgress : List LanguageProgressRow
deriving DecidableEq, Repr

/-- Word.objects.filter(language=lang, difficulty_level__in=tiers, active=True).count()
from update_language_progress (users/signals.py). -/
def total_available_words (words : List Word) (lang : Nat) (tiers : List DifficultyLevel) : Nat :=
  (words.filter (fun w => w.language == lang && tiers.contains w.difficulty_level && w.active)).length

/-- WordsProgress.objects.filter(user=u, target_language=lang, status__in=[learned, mastered]).count()
from update_language_progress (users/signals.py). -/
def learned_mastered_count (wps : List WordsProgressRow) (userId lang : Nat) : Nat :=
  (wps.filter (fun r => r.userId == userId && r.target_language == lang && r.status.isLearnedOrMastered)).length

/-- Round a rational to the nearest integer with ties to even, the semantics of
the Python round builtin (idealised over exact rationals). -/
def roundHalfEven (q : ℚ) : ℤ :=
  if q - Int.floor q = 1 / 2 then
    (if Int.floor q % 2 = 0 then Int.floor q else Int.floor q + 1)
  else
    round q

/-- Python round(x, 2): round to two decimal places, ties to even. -/
def round2 (q : ℚ) : ℚ :=
  (roundHalfEven (q * 100) : ℚ) / 100

/-- Percentage computation of update_language_progress (users/signals.py lines 60-64):
min(100.0, round(lmc / taw * 100, 2)) when taw > 0, else 0.0. -/
def learnedPercentage (lmc taw : Nat) : ℚ :=
  if taw > 0 then min 100 (round2 ((lmc : ℚ) / (taw : ℚ) * 100)) else 0

/-- LanguageProgress.objects.get_or_create(user=u, language=lang, defaults level A1):
returns the found or freshly created row together with the possibly extended table. -/
def getOrCreateLP (lps : List LanguageProgressRow) (userId lang : Nat) :
    LanguageProgressRow × List LanguageProgressRow :=
  match lps.find? (fun r => r.userId == userId && r.language == lang) with
  | some r => (r, lps)
  | none =>
      let r : LanguageProgressRow :=
        { userId := userId, language := lang, level := .A1, learned_words := 0, learned_words_count := 0 }
      (r, lps ++ [r])

/-- Body of update_language_progress (users/signals.py lines 26-70): resolve the
level, count denominator and numerator, compute the percentage, and persist
learned_words / learned_words_count on the (user, language) row. -/
def update_language_progress (s : Store) (userId lang : Nat) : Store :=
  let resolved := getOrCreateLP s.languageProgress userId lang
  let current_level := resolved.fst.level
  let available := DIFFICULTY_TO_LEVEL_MAP current_level
  let taw := total_available_words s.words lang available
  let lmc := learned_mastered_count s.wordsProgress userId lang
  let pct := learnedPercentage lmc taw
  { s with
    languageProgress :=
      resolved.snd.map (fun r =>
        if r.userId == userId && r.language == lang then
          { r with learned_words_count := lmc, learned_words := pct }
        else r) }

/-- The pre_save receiver set_date_learned on WordsProgress (users/signals.py
lines 145-183). The source branches on whether the instance is new and, for an
update, on whether the old row can still be loaded, but every branch assigns
the current date unconditionally. -/
def set_date_learned (isNew : Bool) (oldFound : Bool) (today : Int) (p : WordsProgressRow) :
    WordsProgressRow :=
  if isNew then
    { p with date_learned := some today }
  else if oldFound then
    { p with date_learned := some today }
  else
    { p with date_learned := some today }

/-- One entry of the bulk-update request body (WordsProgressBulkUpdateView).
The id field can be absent; next_review, when present, may fail to parse,
modelled as some none. -/
structure BulkEntry where
  id : Option Nat
  correct : Bool
  status : Option Status
  interval : Option Nat
  next_review : Option (Option Int)
deriving DecidableEq, Repr

/-- One element of the errors list built by the bulk-update loop: an error
message, plus the submitted entry only when the source included it under the
data key. -/
structure ErrorEntry where
  error : String
  data : Option BulkEntry
deriving DecidableEq, Repr

/-- Loop-body field mutation of WordsProgressBulkUpdateView.post (users/views.py
lines 1016-1051), before save: bump review_count, bump correct_count iff
correct, overwrite status / interval when given, overwrite next_review when it
parses, and stamp date_learned when the status is learned or mastered and the
field is still empty. -/
def bulkFieldUpdate (today : Int) (e : BulkEntry) (p : WordsProgressRow) : WordsProgressRow :=
  let p1 := { p with review_count := p.review_count + 1 }
  let p2 := if e.correct then { p1 with correct_count := p1.correct_count + 1 } else p1
  let p3 := match e.status with
    | some st => { p2 with status := st }
    | none => p2
  let p4 := match e.interval with
    | some i => { p3 with interval := i }
    | none => p3
  let p5 := match e.next_review with
    | some (some t) => { p4 with next_review := some t }
    | _ => p4
  if p5.status.isLearnedOrMastered && p5.date_learned == none then
    { p5 with date_learned := some today }
  else p5

/-- Effect of one bulk-update entry on a row: the loop-body mutation followed by
progress.save(), whose pre_save signal is set_date_learned on an existing row. -/
def applyReview (today : Int) (e : BulkEntry) (p : WordsProgressRow) : WordsProgressRow :=
  set_date_learned false true today (bulkFieldUpdate today e p)

/-- Response of the bulk update together with the resulting WordsProgress table. -/
structure BulkResult where
  updated_count : Nat
  total_requested : Nat
  errors : List ErrorEntry
  table : List WordsProgressRow
deriving DecidableEq, Repr

/-- One iteration of the bulk-update loop over the accumulated
(updated_count, errors, table) state. The source treats a missing or falsy id
as an error with the data echoed, a lookup miss (id absent or owned by another
user) as an error without the data key, and otherwise persists the mutation. -/
def bulkStep (userId : Nat) (today : Int) (acc : Nat × List ErrorEntry × List WordsProgressRow)
    (e : BulkEntry) : Nat × List ErrorEntry × List WordsProgressRow :=
  let cnt := acc.1
  let errs := acc.2.1
  let table := acc.2.2
  match e.id with
  | none => (cnt, errs ++ [{ error := "Missing id in update data", data := some e }], table)
  | some 0 => (cnt, errs ++ [{ error := "Missing id in update data", data := some e }], table)
  | some pid =>
      match table.find? (fun r => r.id == pid && r.userId == userId) with
      | none =>
          (cnt, errs ++ [{ error := "Words progress with id " ++ toString pid ++ " not found",
                           data := none }], table)
      | some _ =>
          (cnt + 1, errs,
            table.map (fun r =>
              if r.id == pid && r.userId == userId then applyReview today e r else r))

/-- WordsProgressBulkUpdateView.post (users/views.py lines 971-1107): reject an
empty updates list, otherwise process the entries independently and report
updated_count, total_requested and the collected errors. -/
def bulkPost (userId : Nat) (today : Int) (updates : List BulkEntry)
    (table : List WordsProgressRow) : Except String BulkResult :=
  if updates.isEmpty then .error "No updates provided"
  else
    let final := updates.foldl (bulkStep userId today) (0, [], table)
    .ok { updated_count := final.1, total_requested := updates.length,
          errors := final.2.1, table := final.2.2 }

/-- Language catalog row (languages/models.py): only id and enabled are read here. -/
structure Language where
  id : Nat
  enabled : Bool
deriving DecidableEq, Repr

/-- Requesting user as seen by WordsProgressSerializer.validate: nullable
active_language and native_language references. -/
structure UserCtx where
  id : Nat
  active_language : Option Nat
  native_language : Option Nat
deriving DecidableEq, Repr

/-- Validation failures of the WordsProgress serializer, one constructor per
distinct ValidationError raised in users/serializers.py. -/
inductive ValidationError where
  | invalidWord
  | invalidLanguage
  | languageMismatch
  | nativeLanguageConflict
deriving DecidableEq, Repr

/-- Writable payload of WordsProgressSerializer: word_id, target_language_id and
the writable model fields. review_count and correct_count are declared writable
(absent from read_only_fields) and map to non-negative integer fields, embedded
as Nat. -/
structure ProgressInput where
  word_id : Nat
  target_language_id : Nat
  status : Status
  interval : Nat
  next_review : Option Int
  review_count : Nat
  correct_count : Nat
  date_learned : Option Int
deriving DecidableEq, Repr

/-- Validation pipeline of WordsProgressSerializer (users/serializers.py lines
290-332): validate_word_id requires an existing active word,
validate_target_language_id an existing enabled language, and validate rejects
a word whose language differs from the target language, then rejects the case
where the user has an active_language and the word language equals the user
native_language. -/
def wordsProgressValidate (user : UserCtx) (words : List Word) (langs : List Language)
    (inp : ProgressInput) : Except ValidationError ProgressInput :=
  match words.find? (fun w => w.id == inp.word_id && w.active) with
  | none => .error .invalidWord
  | some _ =>
      match langs.find? (fun l => l.id == inp.target_language_id && l.enabled) with
      | none => .error .invalidLanguage
      | some _ =>
          match words.find? (fun w => w.id == inp.word_id) with
          | none => .error .invalidWord
          | some word =>
              if word.language != inp.target_language_id then .error .languageMismatch
              else if user.active_language.isSome && some word.language == user.native_language then
                .error .nativeLanguageConflict
              else .ok inp

/-- WordsProgressSerializer.create after successful validation, restricted to
the fresh-row branch of get_or_create: build the row from the validated data
(the pre_save set_date_learned stamp applies on the subsequent save). -/
def serializerCreateRow (user : UserCtx) (newId : Nat) (today : Int) (inp : ProgressInput) :
    WordsProgressRow :=
  set_date_learned true false today
    { id := newId, userId := user.id, wordId := inp.word_id,
      target_language := inp.target_language_id, status := inp.status,
      interval := inp.interval, next_review := inp.next_review,
      review_count := inp.review_count, correct_count := inp.correct_count,
      date_learned := inp.date_learned }

/-- Creation through the serializer: validate, then persist the new row. -/
def serializerCreate (user : UserCtx) (words : List Word) (langs : List Language)
    (newId : Nat) (today : Int) (inp : ProgressInput) (table : List WordsProgressRow) :
    Except ValidationError (List WordsProgressRow) :=
  match wordsProgressValidate user words langs inp with
  | .error e => .error e
  | .ok v => .ok (table ++ [serializerCreateRow user newId today v])

/-- Boundary of update_language_progress (users/signals.py lines 26-82): the
whole body sits in a try block whose except clause only logs, so a failing
recalculation leaves the store as it was and no error escapes. The fallible
body is abstracted as a function returning Except. -/
def recalcGuarded (inner : Store → Except String Store) (s : Store) : Store :=
  match inner s with
  | .ok s2 => s2
  | .error _ => s

/-- Post-save flow of a WordsProgress mutation (users/views.py save followed by
the post_save receiver words_progress_updated): the row is committed first, then
the guarded recalculation runs over the committed state. -/
def saveWithRecalc (inner : Store → Except String Store) (s : Store)
    (commit : List WordsProgressRow → List WordsProgressRow) : Store :=
  recalcGuarded inner { s with wordsProgress := commit s.wordsProgress }

/-- Proleptic-Gregorian leap-year test, as in the Python datetime module. -/
def isLeap (y : Nat) : Bool :=
  (y % 4 == 0 && y % 100 != 0) || y % 400 == 0

/-- Month lengths of a non-leap year, January first. -/
def monthLengths : List Nat :=
  [31, 28, 31, 30, 31, 30, 31, 31, 30, 31, 30, 31]

/-- Number of days in the given year strictly before month m (1-based), with
the leap-day correction, as in datetime. -/
def daysBeforeMonth (y m : Nat) : Nat :=
  (monthLengths.take (m - 1)).sum + (if isLeap y && m > 2 then 1 else 0)

/-- Gregorian date as carried by Python datetime.date: year, month, day. -/
structure PyDate where
  year : Nat
  month : Nat
  day : Nat
deriving DecidableEq, Repr

/-- Python date.toordinal: day number with 0001-01-01 as day 1. Django compares
and filters DateField values in this order. -/
def toOrdinal (d : PyDate) : Int :=
  365 * ((d.year : Int) - 1) + ((d.year : Int) - 1) / 4 - ((d.year : Int) - 1) / 100
    + ((d.year : Int) - 1) / 400 + (daysBeforeMonth d.year d.month : Int) + (d.day : Int)

/-- Python date.weekday on an ordinal: Monday is 0 (0001-01-01 was a Monday). -/
def pyWeekday (o : Int) : Int :=
  (o + 6) % 7

/-- Error type of the statistics view: the unsupported-period 400 response. -/
inductive StatsError where
  | invalidArgument
deriving DecidableEq, Repr

/-- Response fields of WordsLearnedStatsView relevant to the date window and
the per-status counts; date bounds are carried as ordinals. -/
structure StatsResult where
  start_date : Option Int
  end_date : Int
  words_new : Nat
  words_learning : Nat
  words_learned : Nat
  words_mastered : Nat
  total_words : Nat
deriving DecidableEq, Repr

/-- Membership of a row in the filtered queryset of WordsLearnedStatsView: owned
by the user, date_learned non-null, within the inclusive window, and matching
the optional target-language filter. -/
def statsRowMatch (userId : Nat) (startD : Option Int) (endD : Int) (langFilter : Option Nat)
    (r : WordsProgressRow) : Bool :=
  r.userId == userId &&
  (match r.date_learned with
   | none => false
   | some d =>
       (match startD with
        | some sd => decide (sd ≤ d)
        | none => true) && decide (d ≤ endD)) &&
  (match langFilter with
   | some lf => r.target_language == lf
   | none => true)

/-- WordsLearnedStatsView.get (users/views.py lines 1531-1700): resolve the
period preset into an inclusive [start_date, end_date] window (rejecting
unknown presets before any query), filter the rows, and count them by status.
The daily and per-language breakdowns are not modelled. -/
def wordsLearnedStats (period : String) (langFilter : Option Nat) (today : PyDate)
    (userId : Nat) (rows : List WordsProgressRow) : Except StatsError StatsResult :=
  let t := toOrdinal today
  let range : Option (Option Int × Int) :=
    if period == "today" then some (some t, t)
    else if period == "week" then some (some (t - pyWeekday t), t)
    else if period == "month" then some (some (toOrdinal { today with day := 1 }), t)
    else if period == "year" then some (some (toOrdinal { year := today.year, month := 1, day := 1 }), t)
    else if period == "all" then some (none, t)
    else none
  match range with
  | none => .error .invalidArgument
  | some (startD, endD) =>
      let q := rows.filter (statsRowMatch userId startD endD langFilter)
      let learnedCount := (q.filter (fun r => r.status == .learned)).length
      let masteredCount := (q.filter (fun r => r.status == .mastered)).length
      .ok { start_date := startD, end_date := endD,
            words_new := (q.filter (fun r => r.status == .new)).length,
            words_learning := (q.filter (fun r => r.status == .learning)).length,
            words_learned := learnedCount,
            words_mastered := masteredCount,
            total_words := learnedCount + masteredCount }

section Helpers

/-- Rounding half-to-even of a non-negative rational is non-negative. -/
theorem roundHalfEven_nonneg (q : ℚ) (h : 0 ≤ q) : 0 ≤ roundHalfEven q := by
  have hfl : (0 : ℤ) ≤ Int.floor q := Int.le_floor.mpr (by exact_mod_cast h)
  unfold roundHalfEven
  split
  · split
    · exact hfl
    · omega
  · rw [round_eq]
    refine Int.le_floor.mpr ?_
    push_cast
    linarith

/-- Rounding a non-negative rational to two decimals is non-negative. -/
theorem round2_nonneg (q : ℚ) (h : 0 ≤ q) : 0 ≤ round2 q := by
  unfold round2
  have h1 : (0 : ℚ) ≤ (roundHalfEven (q * 100) : ℚ) := by
    exact_mod_cast roundHalfEven_nonneg (q * 100) (by positivity)
  positivity

/-- The percentage written by the recalculator is never negative. -/
theorem learnedPercentage_nonneg (lmc taw : Nat) : 0 ≤ learnedPercentage lmc taw := by
  unfold learnedPercentage
  split
  · exact le_min (by norm_num) (round2_nonneg _ (by positivity))
  · exact le_refl 0

/-- The percentage written by the recalculator never exceeds 100. -/
theorem learnedPercentage_le_100 (lmc taw : Nat) : learnedPercentage lmc taw ≤ 100 := by
  unfold learnedPercentage
  split
  · exact min_le_left _ _
  · norm_num

/-- Filtering with a weaker predicate keeps at least as many elements. -/
theorem filter_length_mono {α : Type} (l : List α) (p q : α → Bool)
    (h : ∀ a, p a = true → q a = true) :
    (l.filter p).length ≤ (l.filter q).length := by
  induction l with
  | nil => simp
  | cons a tl ih =>
      by_cases hp : p a = true
      · rw [List.filter_cons_of_pos hp, List.filter_cons_of_pos (h a hp)]
        simp only [List.length_cons]
        exact Nat.succ_le_succ ih
      · rw [List.filter_cons_of_neg hp]
        cases hq : q a
        · rw [List.filter_cons_of_neg (by simp [hq])]
          exact ih
        · rw [List.filter_cons_of_pos hq]
          simp only [List.length_cons]
          exact le_trans ih (Nat.le_succ _)

/-- A tier list contained in another yields no larger available-word count. -/
theorem total_available_words_mono (words : List Word) (lang : Nat)
    (t1 t2 : List DifficultyLevel)
    (h : ∀ d : DifficultyLevel, t1.contains d = true → t2.contains d = true) :
    total_available_words words lang t1 ≤ total_available_words words lang t2 := by
  unfold total_available_words
  refine filter_length_mono _ _ _ ?_
  intro a ha
  simp only [Bool.and_eq_true] at ha ⊢
  exact ⟨⟨ha.1.1, h _ ha.1.2⟩, ha.2⟩

end Helpers

/-- C1: after the recalculator runs, the learned_words value of the affected
(user, language) row equals min(100, round(lmc / taw * 100, 2)) when taw > 0
and 0.0 when taw = 0, and in either case lies within [0, 100], even when the
numerator exceeds the denominator. -/
theorem C1_learned_words_formula (s : Store) (userId lang : Nat) (r : LanguageProgressRow)
    (hr : r ∈ (update_language_progress s userId lang).languageProgress)
    (hu : r.userId = userId) (hl : r.language = lang) :
    r.learned_words =
      learnedPercentage (learned_mastered_count s.wordsProgress userId lang)
        (total_available_words s.words lang
          (DIFFICULTY_TO_LEVEL_MAP (getOrCreateLP s.languageProgress userId lang).fst.level))
    ∧ r.learned_words_count = learned_mastered_count s.wordsProgress userId lang
    ∧ 0 ≤ r.learned_words ∧ r.learned_words ≤ 100 := by
  unfold update_language_progress at hr
  simp only [List.mem_map] at hr
  obtain ⟨a, _, hfa⟩ := hr
  by_cases hcond : (a.userId == userId && a.language == lang) = true
  · rw [if_pos hcond] at hfa
    subst hfa
    refine ⟨rfl, rfl, learnedPercentage_nonneg _ _, learnedPercentage_le_100 _ _⟩
  · rw [if_neg hcond] at hfa
    subst hfa
    exfalso
    simp only [Bool.and_eq_true, beq_iff_eq] at hcond
    exact hcond ⟨hu, hl⟩

/-- Witness for C1 on the empty store: the recalculator lazily creates the
(0, 0) row at level A1 and writes percentage 0. -/
theorem C1_witness :
    ((⟨0, 0, Level.A1, 0, 0⟩ : LanguageProgressRow) ∈
        (update_language_progress ⟨[], [], []⟩ 0 0).languageProgress)
    ∧ ((⟨0, 0, Level.A1, 0, 0⟩ : LanguageProgressRow).userId = 0)
    ∧ ((⟨0, 0, Level.A1, 0, 0⟩ : LanguageProgressRow).language = 0)
    ∧ ((⟨0, 0, Level.A1, 0, 0⟩ : LanguageProgressRow).learned_words =
        learnedPercentage (learned_mastered_count ([] : List WordsProgressRow) 0 0)
          (total_available_words ([] : List Word) 0
            (DIFFICULTY_TO_LEVEL_MAP (getOrCreateLP ([] : List LanguageProgressRow) 0 0).fst.level))
        ∧ (⟨0, 0, Level.A1, 0, 0⟩ : LanguageProgressRow).learned_words_count =
            learned_mastered_count ([] : List WordsProgressRow) 0 0
        ∧ 0 ≤ (⟨0, 0, Level.A1, 0, 0⟩ : LanguageProgressRow).learned_words
        ∧ (⟨0, 0, Level.A1, 0, 0⟩ : LanguageProgressRow).learned_words ≤ 100) :=
  ⟨by decide, rfl, rfl,
    C1_learned_words_formula ⟨[], [], []⟩ 0 0 ⟨0, 0, Level.A1, 0, 0⟩ (by decide) rfl rfl⟩

/-- C3: every save path stamps date_learned with the current date regardless of
status: all branches of the pre_save receiver set it, hence so do the
bulk-review save and the serializer create. -/
theorem C3_date_learned_every_touch (isNew oldFound : Bool) (today : Int)
    (p : WordsProgressRow) (e : BulkEntry) (user : UserCtx) (newId : Nat)
    (inp : ProgressInput) :
    (set_date_learned isNew oldFound today p).date_learned = some today
    ∧ (applyReview today e p).date_learned = some today
    ∧ (serializerCreateRow user newId today inp).date_learned = some today := by
  refine ⟨?_, rfl, rfl⟩
  cases isNew <;> cases oldFound <;> rfl

/-- C7: a failing recalculation is absorbed at the boundary: the store keeps
exactly the committed WordsProgress mutation, and a successful recalculation
also leaves the WordsProgress table untouched. No error escapes in either case
since the combined operation is a total function into Store. -/
theorem C7_recalc_failure_contained (inner : Store → Except String Store) (s : Store)
    (commit : List WordsProgressRow → List WordsProgressRow) (e : String) (u l : Nat)
    (hfail : inner { s with wordsProgress := commit s.wordsProgress } = .error e) :
    saveWithRecalc inner s commit = { s with wordsProgress := commit s.wordsProgress }
    ∧ (saveWithRecalc (fun st => Except.ok (update_language_progress st u l)) s commit).wordsProgress
        = commit s.wordsProgress := by
  constructor
  · unfold saveWithRecalc recalcGuarded
    rw [hfail]
  · rfl

/-- Witness for C7: a concrete inner recalculation that always fails leaves a
concrete one-row commit fully intact. -/
theorem C7_witness :
    ((fun _ : Store => (Except.error "db failure" : Except String Store)) : Store → Except String Store)
        { (⟨[], [], []⟩ : Store) with
          wordsProgress := (fun t => t ++ [⟨1, 1, 1, 1, Status.new, 1, none, 0, 0, none⟩]) ([] : List WordsProgressRow) }
      = .error "db failure"
    ∧ (saveWithRecalc (fun _ => Except.error "db failure") ⟨[], [], []⟩
          (fun t => t ++ [⟨1, 1, 1, 1, Status.new, 1, none, 0, 0, none⟩])
        = { (⟨[], [], []⟩ : Store) with
            wordsProgress := (fun t => t ++ [⟨1, 1, 1, 1, Status.new, 1, none, 0, 0, none⟩]) ([] : List WordsProgressRow) }
      ∧ (saveWithRecalc (fun st => Except.ok (update_language_progress st 0 0)) ⟨[], [], []⟩
            (fun t => t ++ [⟨1, 1, 1, 1, Status.new, 1, none, 0, 0, none⟩])).wordsProgress
          = (fun t => t ++ [⟨1, 1, 1, 1, Status.new, 1, none, 0, 0, none⟩]) ([] : List WordsProgressRow)) :=
  ⟨rfl, C7_recalc_failure_contained (fun _ => Except.error "db failure") ⟨[], [], []⟩
    (fun t => t ++ [⟨1, 1, 1, 1, Status.new, 1, none, 0, 0, none⟩]) "db failure" 0 0 rfl⟩

/-- C9: the level-to-tiers table is cumulative and monotone in the order
A1 < A2 < B1 < B2 < C1 < C2, so raising the level never shrinks the eligible
tier set nor decreases the available-word denominator on any fixed catalog. -/
theorem C9_level_monotone (L1 L2 : Level) (h : L1.rank ≤ L2.rank)
    (words : List Word) (lang : Nat) :
    (∀ d ∈ DIFFICULTY_TO_LEVEL_MAP L1, d ∈ DIFFICULTY_TO_LEVEL_MAP L2)
    ∧ total_available_words words lang (DIFFICULTY_TO_LEVEL_MAP L1)
        ≤ total_available_words words lang (DIFFICULTY_TO_LEVEL_MAP L2) := by
  cases L1 <;> cases L2 <;>
    first
      | exact absurd h (by decide)
      | exact ⟨by decide, total_available_words_mono words lang _ _ (by decide)⟩

/-- Witness for C9 at the step from A1 to B1 on a one-word catalog. -/
theorem C9_witness :
    Level.rank .A1 ≤ Level.rank .B1
    ∧ ((∀ d ∈ DIFFICULTY_TO_LEVEL_MAP .A1, d ∈ DIFFICULTY_TO_LEVEL_MAP .B1)
      ∧ total_available_words [⟨1, 1, DifficultyLevel.intermediate, true⟩] 1
            (DIFFICULTY_TO_LEVEL_MAP .A1)
          ≤ total_available_words [⟨1, 1, DifficultyLevel.intermediate, true⟩] 1
              (DIFFICULTY_TO_LEVEL_MAP .B1)) :=
  ⟨by decide, C9_level_monotone .A1 .B1 (by decide) [⟨1, 1, DifficultyLevel.intermediate, true⟩] 1⟩

/-- The loop-body field mutation always bumps review_count by exactly one. -/
theorem bulkFieldUpdate_review_count (today : Int) (e : BulkEntry) (p : WordsProgressRow) :
    (bulkFieldUpdate today e p).review_count = p.review_count + 1 := by
  rcases e with ⟨eid, ec, es, ei, en⟩
  cases ec <;> rcases es with _ | s <;> rcases ei with _ | i <;>
      rcases en with _ | nr <;> (try rcases nr with _ | t) <;>
    simp only [bulkFieldUpdate, apply_ite (fun r : WordsProgressRow => r.review_count), ite_self]

/-- The loop-body field mutation bumps correct_count by one exactly when the
submitted correct flag is true. -/
theorem bulkFieldUpdate_correct_count (today : Int) (e : BulkEntry) (p : WordsProgressRow) :
    (bulkFieldUpdate today e p).correct_count
      = p.correct_count + (if e.correct then 1 else 0) := by
  rcases e with ⟨eid, ec, es, ei, en⟩
  cases ec <;> rcases es with _ | s <;> rcases ei with _ | i <;>
      rcases en with _ | nr <;> (try rcases nr with _ | t) <;>
    simp [bulkFieldUpdate, apply_ite (fun r : WordsProgressRow => r.correct_count), ite_self]

/-- A bulk review application always bumps review_count by exactly one. -/
theorem applyReview_review_count (today : Int) (e : BulkEntry) (p : WordsProgressRow) :
    (applyReview today e p).review_count = p.review_count + 1 := by
  have h : (applyReview today e p).review_count = (bulkFieldUpdate today e p).review_count := rfl
  rw [h, bulkFieldUpdate_review_count]

/-- A bulk review application bumps correct_count by one exactly when the
submitted correct flag is true. -/
theorem applyReview_correct_count (today : Int) (e : BulkEntry) (p : WordsProgressRow) :
    (applyReview today e p).correct_count = p.correct_count + (if e.correct then 1 else 0) := by
  have h : (applyReview today e p).correct_count = (bulkFieldUpdate today e p).correct_count := rfl
  rw [h, bulkFieldUpdate_correct_count]

/-- C2: applying N review submissions to a WordsProgress row through the bulk
update loop raises review_count by exactly N, one per submission, and raises
correct_count by exactly the number of submissions with a true correct flag,
independently of status, interval and next_review payloads. -/
theorem C2_bulk_counters (today : Int) (es : List BulkEntry) (p : WordsProgressRow) :
    (es.foldl (fun q e => applyReview today e q) p).review_count = p.review_count + es.length
    ∧ (es.foldl (fun q e => applyReview today e q) p).correct_count
        = p.correct_count + es.countP (fun e => e.correct) := by
  induction es generalizing p with
  | nil => simp
  | cons e tl ih =>
      simp only [List.foldl_cons, List.countP_cons, List.length_cons]
      constructor
      · rw [(ih (applyReview today e p)).1, applyReview_review_count]
        omega
      · rw [(ih (applyReview today e p)).2, applyReview_correct_count]
        cases e.correct <;> (simp; try omega)

/-- C8 counterexample: the single-record serializer declares review_count and
correct_count writable and validates no relation between them, so a create
with correct_count 5 and review_count 0 passes validation and persists a row
violating correct_count less-or-equal review_count. -/
theorem C8_counterexample :
    (serializerCreate ⟨1, none, none⟩ [⟨10, 7, DifficultyLevel.beginner, true⟩] [⟨7, true⟩]
        1 100 ⟨10, 7, Status.new, 1, none, 0, 5, none⟩ []).map
        (fun tbl => tbl.all (fun r => decide (r.correct_count ≤ r.review_count)))
      = .ok false := by
  rfl

/-- C8 amended: along the bulk review path the counters are well-behaved: both
are non-negative by construction, never decrease under any sequence of
submissions, and correct_count stays below review_count whenever it starts so;
the single-record create and update paths, however, accept arbitrary
non-negative counter values. -/
theorem C8_amended_bulk_counters_invariant (today : Int) (es : List BulkEntry)
    (p : WordsProgressRow) (hinv : p.correct_count ≤ p.review_count) :
    (es.foldl (fun q e => applyReview today e q) p).correct_count
        ≤ (es.foldl (fun q e => applyReview today e q) p).review_count
    ∧ p.review_count ≤ (es.foldl (fun q e => applyReview today e q) p).review_count
    ∧ p.correct_count ≤ (es.foldl (fun q e => applyReview today e q) p).correct_count := by
  induction es generalizing p with
  | nil => exact ⟨hinv, le_refl _, le_refl _⟩
  | cons e tl ih =>
      simp only [List.foldl_cons]
      have hr := applyReview_review_count today e p
      have hc := applyReview_correct_count today e p
      have hstep : (applyReview today e p).correct_count ≤ (applyReview today e p).review_count := by
        rw [hr, hc]
        cases e.correct <;> simp <;> omega
      obtain ⟨h1, h2, h3⟩ := ih (applyReview today e p) hstep
      refine ⟨h1, le_trans ?_ h2, le_trans ?_ h3⟩
      · rw [hr]; omega
      · rw [hc]; cases e.correct <;> simp

/-- Witness for the amended C8 on a fresh row receiving one correct review. -/
theorem C8_amended_witness :
    (⟨1, 1, 10, 7, Status.new, 1, none, 0, 0, none⟩ : WordsProgressRow).correct_count
        ≤ (⟨1, 1, 10, 7, Status.new, 1, none, 0, 0, none⟩ : WordsProgressRow).review_count
    ∧ (([⟨some 1, true, none, none, none⟩] : List BulkEntry).foldl
          (fun q e => applyReview 0 e q) ⟨1, 1, 10, 7, Status.new, 1, none, 0, 0, none⟩).correct_count
        ≤ (([⟨some 1, true, none, none, none⟩] : List BulkEntry).foldl
            (fun q e => applyReview 0 e q) ⟨1, 1, 10, 7, Status.new, 1, none, 0, 0, none⟩).review_count
    ∧ (⟨1, 1, 10, 7, Status.new, 1, none, 0, 0, none⟩ : WordsProgressRow).review_count
        ≤ (([⟨some 1, true, none, none, none⟩] : List BulkEntry).foldl
            (fun q e => applyReview 0 e q) ⟨1, 1, 10, 7, Status.new, 1, none, 0, 0, none⟩).review_count
    ∧ (⟨1, 1, 10, 7, Status.new, 1, none, 0, 0, none⟩ : WordsProgressRow).correct_count
        ≤ (([⟨some 1, true, none, none, none⟩] : List BulkEntry).foldl
            (fun q e => applyReview 0 e q) ⟨1, 1, 10, 7, Status.new, 1, none, 0, 0, none⟩).correct_count :=
  ⟨by decide,
    C8_amended_bulk_counters_invariant 0 [⟨some 1, true, none, none, none⟩]
      ⟨1, 1, 10, 7, Status.new, 1, none, 0, 0, none⟩ (by decide)⟩

/-- C10: serializer validation rejects a create whenever the requesting user has
an active_language and the word language equals the user native_language, even
when the word is active, the target language is enabled, and the word language
equals the target language. -/
theorem C10_native_language_rejection (user : UserCtx) (words : List Word)
    (langs : List Language) (inp : ProgressInput) (w1 w : Word) (lg : Language)
    (hfind1 : words.find? (fun x => x.id == inp.word_id && x.active) = some w1)
    (hlang : langs.find? (fun l => l.id == inp.target_language_id && l.enabled) = some lg)
    (hfind2 : words.find? (fun x => x.id == inp.word_id) = some w)
    (hmatch : w.language = inp.target_language_id)
    (hactive : user.active_language.isSome = true)
    (hnative : user.native_language = some w.language) :
    wordsProgressValidate user words langs inp = .error .nativeLanguageConflict := by
  unfold wordsProgressValidate
  rw [hfind1, hlang, hfind2]
  rw [hmatch] at hnative
  simp [hmatch, hactive, hnative]

/-- Witness for C10: an active word in an enabled language equal to the target
is still rejected because it coincides with the native language of a user with
an active language set. -/
theorem C10_witness :
    ([⟨10, 7, DifficultyLevel.beginner, true⟩] : List Word).find?
        (fun x => x.id == (⟨10, 7, Status.new, 1, none, 0, 0, none⟩ : ProgressInput).word_id && x.active)
      = some ⟨10, 7, DifficultyLevel.beginner, true⟩
    ∧ ([⟨7, true⟩] : List Language).find?
        (fun l => l.id == (⟨10, 7, Status.new, 1, none, 0, 0, none⟩ : ProgressInput).target_language_id && l.enabled)
      = some ⟨7, true⟩
    ∧ ([⟨10, 7, DifficultyLevel.beginner, true⟩] : List Word).find?
        (fun x => x.id == (⟨10, 7, Status.new, 1, none, 0, 0, none⟩ : ProgressInput).word_id)
      = some ⟨10, 7, DifficultyLevel.beginner, true⟩
    ∧ (⟨10, 7, DifficultyLevel.beginner, true⟩ : Word).language
        = (⟨10, 7, Status.new, 1, none, 0, 0, none⟩ : ProgressInput).target_language_id
    ∧ (⟨1, some 7, some 7⟩ : UserCtx).active_language.isSome = true
    ∧ (⟨1, some 7, some 7⟩ : UserCtx).native_language
        = some (⟨10, 7, DifficultyLevel.beginner, true⟩ : Word).language
    ∧ wordsProgressValidate ⟨1, some 7, some 7⟩ [⟨10, 7, DifficultyLevel.beginner, true⟩]
        [⟨7, true⟩] ⟨10, 7, Status.new, 1, none, 0, 0, none⟩
      = .error .nativeLanguageConflict :=
  ⟨by decide, by decide, by decide, rfl, rfl, rfl,
    C10_native_language_rejection ⟨1, some 7, some 7⟩ [⟨10, 7, DifficultyLevel.beginner, true⟩]
      [⟨7, true⟩] ⟨10, 7, Status.new, 1, none, 0, 0, none⟩
      ⟨10, 7, DifficultyLevel.beginner, true⟩ ⟨10, 7, DifficultyLevel.beginner, true⟩ ⟨7, true⟩
      (by decide) (by decide) (by decide) rfl rfl rfl⟩

/-- C4: the recalculation numerator counts every row of the user for the
language with status learned or mastered with no reference to difficulty
tiers — reassigning every difficulty in the catalog leaves the persisted
learned_words_count unchanged — while the denominator filters the catalog by
the eligible tiers (and the active flag). -/
theorem C4_numerator_denominator_tiers (s : Store) (u l : Nat)
    (f : Word → DifficultyLevel) (tiers : List DifficultyLevel) :
    learned_mastered_count s.wordsProgress u l
      = s.wordsProgress.countP
          (fun r => r.userId == u && r.target_language == l && r.status.isLearnedOrMastered)
    ∧ (update_language_progress
          { s with words := s.words.map (fun w => { w with difficulty_level := f w }) } u
          l).languageProgress.map (fun r => r.learned_words_count)
        = (update_language_progress s u l).languageProgress.map (fun r => r.learned_words_count)
    ∧ total_available_words (s.words.map (fun w => { w with difficulty_level := f w })) l tiers
        = s.words.countP (fun w => w.language == l && tiers.contains (f w) && w.active) := by
  refine ⟨?_, ?_, ?_⟩
  · rw [learned_mastered_count, List.countP_eq_length_filter]
  · simp only [update_language_progress, List.map_map]
    refine List.map_congr_left ?_
    intro a _
    by_cases hcond : (a.userId == u && a.language == l) = true
    · simp only [Function.comp, if_pos hcond]
    · simp only [Function.comp, if_neg hcond]
  · rw [total_available_words, ← List.countP_eq_length_filter, List.countP_map]
    rfl

/-- C5 counterexample: a batch with one valid and one nonexistent id commits
the valid update and reports updated_count 1 of total_requested 2, but the
error entry for the nonexistent id carries only the message — its data field
is absent (none), not the submitted entry as the claimed error shape has it. -/
theorem C5_counterexample :
    bulkPost 1 100 [⟨some 1, true, none, none, none⟩, ⟨some 999999, false, none, none, none⟩]
        [⟨1, 1, 10, 7, Status.new, 1, none, 0, 0, none⟩]
      = .ok { updated_count := 1, total_requested := 2,
              errors := [⟨"Words progress with id 999999 not found", none⟩],
              table := [⟨1, 1, 10, 7, Status.new, 1, none, 1, 1, some 100⟩] } := by
  rfl

/-- Every iteration of the bulk loop accounts for its entry exactly once,
either as a success or as one error entry. -/
theorem bulkStep_count_errors (u : Nat) (today : Int)
    (acc : Nat × List ErrorEntry × List WordsProgressRow) (e : BulkEntry) :
    (bulkStep u today acc e).1 + (bulkStep u today acc e).2.1.length
      = acc.1 + acc.2.1.length + 1 := by
  rcases e with ⟨eid, ec, es, ei, en⟩
  rcases eid with _ | pid
  · simp [bulkStep]
    omega
  · rcases pid with _ | n
    · simp [bulkStep]
      omega
    · dsimp only [bulkStep]
      cases hfind : (acc.2.2).find? (fun r => r.id == n + 1 && r.userId == u) <;>
        simp [hfind] <;> omega

/-- Folding the bulk loop over a list of entries adds exactly the list length
to successes plus errors. -/
theorem bulkFold_count_errors (u : Nat) (today : Int) (updates : List BulkEntry)
    (acc : Nat × List ErrorEntry × List WordsProgressRow) :
    (updates.foldl (bulkStep u today) acc).1
        + (updates.foldl (bulkStep u today) acc).2.1.length
      = acc.1 + acc.2.1.length + updates.length := by
  induction updates generalizing acc with
  | nil => simp
  | cons e tl ih =>
      simp only [List.foldl_cons, List.length_cons]
      rw [ih (bulkStep u today acc e), bulkStep_count_errors]
      omega

/-- C5 amended: a non-empty batch always yields a 200 response whose
total_requested is the batch size and whose updated_count plus collected error
entries account for every entry — one error entry per failing entry, without
aborting the batch; for a nonexistent id the error entry holds only the
message, without the submitted data. -/
theorem C5_amended_bulk_accounting (u : Nat) (today : Int) (updates : List BulkEntry)
    (table : List WordsProgressRow) (h : updates ≠ []) :
    ∃ r : BulkResult, bulkPost u today updates table = .ok r
      ∧ r.total_requested = updates.length
      ∧ r.updated_count + r.errors.length = updates.length := by
  unfold bulkPost
  rw [if_neg (by simpa using h)]
  refine ⟨_, rfl, rfl, ?_⟩
  have hfold := bulkFold_count_errors u today updates (0, [], table)
  simpa using hfold

/-- Witness for the amended C5 on a one-entry batch whose entry lacks an id. -/
theorem C5_amended_witness :
    ([⟨none, false, none, none, none⟩] : List BulkEntry) ≠ []
    ∧ ∃ r : BulkResult,
        bulkPost 1 0 [⟨none, false, none, none, none⟩] [] = .ok r
        ∧ r.total_requested = ([⟨none, false, none, none, none⟩] : List BulkEntry).length
        ∧ r.updated_count + r.errors.length
            = ([⟨none, false, none, none, none⟩] : List BulkEntry).length :=
  ⟨by decide, C5_amended_bulk_accounting 1 0 [⟨none, false, none, none, none⟩] [] (by decide)⟩

/-- The concrete scenario of the spec: three learned rows of one user dated
today, three days ago and forty days ago (dates given as ordinals). -/
def C6Scenario (u : Nat) (t : Int) : List WordsProgressRow :=
  [⟨1, u, 10, 7, .learned, 1, none, 0, 0, some t⟩,
   ⟨2, u, 11, 7, .learned, 1, none, 0, 0, some (t - 3)⟩,
   ⟨3, u, 12, 7, .learned, 1, none, 0, 0, some (t - 40)⟩]

/-- The first of the month is never after the day itself. -/
theorem toOrdinal_first_le (y m d : Nat) (h : 1 ≤ d) :
    toOrdinal ⟨y, m, 1⟩ ≤ toOrdinal ⟨y, m, d⟩ := by
  have hd : (1 : Int) ≤ (d : Int) := by exact_mod_cast h
  dsimp only [toOrdinal]
  push_cast
  linarith

/-- January first is never after any day of the same year. -/
theorem toOrdinal_year_first_le (y m d : Nat) (h : 1 ≤ d) :
    toOrdinal ⟨y, 1, 1⟩ ≤ toOrdinal ⟨y, m, d⟩ := by
  have hd : (1 : Int) ≤ (d : Int) := by exact_mod_cast h
  have h1 : daysBeforeMonth y 1 = 0 := by simp [daysBeforeMonth]
  have h2 : (0 : Int) ≤ (daysBeforeMonth y m : Int) := Int.natCast_nonneg _
  dsimp only [toOrdinal]
  rw [h1]
  push_cast
  linarith

/-- The ordinal of the first of the month in terms of the ordinal of the day. -/
theorem toOrdinal_first_eq (td : PyDate) :
    toOrdinal ⟨td.year, td.month, 1⟩ + ((td.day : Int) - 1) = toOrdinal td := by
  dsimp only [toOrdinal]
  push_cast
  ring

/-- Conjunction asserted for C6: each supported preset resolves to the claimed
inclusive window, words_learned counts exactly the in-window rows with status
learned, unsupported presets fail with the invalid-argument error independently
of the data, and the spec scenario yields 1 for today, 2 for week when the
weekday is at least 3, at least 2 for month when the day of month is at least
4, and 3 for all. -/
def C6Conclusion (today : PyDate) (u : Nat) (rows : List WordsProgressRow)
    (lf : Option Nat) (pbad : String) : Prop :=
  ((wordsLearnedStats "today" lf today u rows).map (fun r => (r.start_date, r.end_date))
      = .ok (some (toOrdinal today), toOrdinal today))
  ∧ ((wordsLearnedStats "week" lf today u rows).map (fun r => (r.start_date, r.end_date))
        = .ok (some (toOrdinal today - pyWeekday (toOrdinal today)), toOrdinal today)
    ∧ pyWeekday (toOrdinal today - pyWeekday (toOrdinal today)) = 0
    ∧ toOrdinal today - 6 ≤ toOrdinal today - pyWeekday (toOrdinal today)
    ∧ toOrdinal today - pyWeekday (toOrdinal today) ≤ toOrdinal today)
  ∧ ((wordsLearnedStats "month" lf today u rows).map (fun r => (r.start_date, r.end_date))
        = .ok (some (toOrdinal ⟨today.year, today.month, 1⟩), toOrdinal today)
    ∧ toOrdinal ⟨today.year, today.month, 1⟩ ≤ toOrdinal today)
  ∧ ((wordsLearnedStats "year" lf today u rows).map (fun r => (r.start_date, r.end_date))
        = .ok (some (toOrdinal ⟨today.year, 1, 1⟩), toOrdinal today)
    ∧ toOrdinal ⟨today.year, 1, 1⟩ ≤ toOrdinal today)
  ∧ ((wordsLearnedStats "all" lf today u rows).map (fun r => (r.start_date, r.end_date))
      = .ok (none, toOrdinal today))
  ∧ ((wordsLearnedStats "today" lf today u rows).map (fun r => r.words_learned)
      = .ok ((rows.filter (statsRowMatch u (some (toOrdinal today)) (toOrdinal today) lf)).filter
          (fun r => r.status == Status.learned)).length)
  ∧ ((wordsLearnedStats "all" lf today u rows).map (fun r => r.words_learned)
      = .ok ((rows.filter (statsRowMatch u none (toOrdinal today) lf)).filter
          (fun r => r.status == Status.learned)).length)
  ∧ wordsLearnedStats pbad lf today u rows = .error .invalidArgument
  ∧ ((wordsLearnedStats "today" none today u (C6Scenario u (toOrdinal today))).map
      (fun r => r.words_learned) = .ok 1)
  ∧ (3 ≤ pyWeekday (toOrdinal today) →
      (wordsLearnedStats "week" none today u (C6Scenario u (toOrdinal today))).map
        (fun r => r.words_learned) = .ok 2)
  ∧ (4 ≤ today.day →
      ∃ n, (wordsLearnedStats "month" none today u (C6Scenario u (toOrdinal today))).map
          (fun r => r.words_learned) = .ok n ∧ 2 ≤ n)
  ∧ ((wordsLearnedStats "all" none today u (C6Scenario u (toOrdinal today))).map
      (fun r => r.words_learned) = .ok 3)

/-- C6 amended: every supported preset yields the claimed inclusive window
(today, Monday-start week, first-of-month, January-first, unbounded),
words_learned counts the in-window learned rows, unsupported presets fail with
the invalid-argument error before touching the data, and the spec scenario
yields 1, 2 and 3 for today, week and all; for month it yields at least 2 only
under the additional premise that the day of month is at least 4, since
otherwise the three-day-old row falls in the previous month. -/
theorem C6_amended_window_correctness (today : PyDate) (u : Nat)
    (rows : List WordsProgressRow) (lf : Option Nat) (pbad : String)
    (hday : 1 ≤ today.day)
    (hb1 : pbad ≠ "today") (hb2 : pbad ≠ "week") (hb3 : pbad ≠ "month")
    (hb4 : pbad ≠ "year") (hb5 : pbad ≠ "all") :
    C6Conclusion today u rows lf pbad := by
  refine ⟨rfl, ⟨rfl, ?_, ?_, ?_⟩, ⟨rfl, ?_⟩, ⟨rfl, ?_⟩, rfl, rfl, rfl, ?_, ?_, ?_, ?_, ?_⟩
  · unfold pyWeekday; omega
  · unfold pyWeekday; omega
  · unfold pyWeekday; omega
  · exact toOrdinal_first_le today.year today.month today.day hday
  · exact toOrdinal_year_first_le today.year today.month today.day hday
  · simp [wordsLearnedStats, hb1, hb2, hb3, hb4, hb5]
  · have h1 : ¬ (toOrdinal today ≤ toOrdinal today - 3) := by omega
    have h2 : ¬ (toOrdinal today ≤ toOrdinal today - 40) := by omega
    simp [wordsLearnedStats, C6Scenario, statsRowMatch, Except.map, h1, h2]
  · intro hw
    have h1 : toOrdinal today - pyWeekday (toOrdinal today) ≤ toOrdinal today := by
      unfold pyWeekday at *; omega
    have h2 : toOrdinal today - pyWeekday (toOrdinal today) ≤ toOrdinal today - 3 := by
      unfold pyWeekday at *; omega
    have h3 : ¬ (toOrdinal today - pyWeekday (toOrdinal today) ≤ toOrdinal today - 40) := by
      unfold pyWeekday at *; omega
    have h4 : toOrdinal today - 3 ≤ toOrdinal today := by omega
    simp [wordsLearnedStats, C6Scenario, statsRowMatch, Except.map, h1, h2, h3, h4]
  · intro hd
    have hkey := toOrdinal_first_eq today
    have hdi : (4 : Int) ≤ (today.day : Int) := by exact_mod_cast hd
    have h1 : toOrdinal ⟨today.year, today.month, 1⟩ ≤ toOrdinal today := by omega
    have h2 : toOrdinal ⟨today.year, today.month, 1⟩ ≤ toOrdinal today - 3 := by omega
    have h4 : toOrdinal today - 3 ≤ toOrdinal today := by omega
    have h5 : toOrdinal today - 40 ≤ toOrdinal today := by omega
    by_cases h3 : toOrdinal ⟨today.year, today.month, 1⟩ ≤ toOrdinal today - 40
    · refine ⟨3, ?_, by omega⟩
      simp [wordsLearnedStats, C6Scenario, statsRowMatch, Except.map, h1, h2, h3, h4, h5]
    · refine ⟨2, ?_, by omega⟩
      simp [wordsLearnedStats, C6Scenario, statsRowMatch, Except.map, h1, h2, h3, h4, h5]
  · have h1 : toOrdinal today - 3 ≤ toOrdinal today := by omega
    have h2 : toOrdinal today - 40 ≤ toOrdinal today := by omega
    simp [wordsLearnedStats, C6Scenario, statsRowMatch, Except.map, h1, h2]

/-- Witness for the amended C6 at 2026-10-15 (a Thursday, day of month 15)
with an empty table and the unsupported preset value bogus. -/
theorem C6_amended_witness :
    1 ≤ (⟨2026, 10, 15⟩ : PyDate).day
    ∧ ("bogus" ≠ "today" ∧ "bogus" ≠ "week" ∧ "bogus" ≠ "month"
        ∧ "bogus" ≠ "year" ∧ "bogus" ≠ "all")
    ∧ C6Conclusion ⟨2026, 10, 15⟩ 1 [] none "bogus" :=
  ⟨by decide, ⟨by decide, by decide, by decide, by decide, by decide⟩,
    C6_amended_window_correctness ⟨2026, 10, 15⟩ 1 [] none "bogus" (by decide)
      (by decide) (by decide) (by decide) (by decide) (by decide)⟩

/-- C6 counterexample: on 2023-03-02, a Thursday satisfying the scenario
premises (not a Monday, the three-day-old row inside the current week, so the
week count is 2), the month preset counts only 1 learned word because the
three-day-old and forty-day-old rows fall in February, refuting the claimed
at-least-2 for period month. -/
theorem C6_counterexample :
    pyWeekday (toOrdinal ⟨2023, 3, 2⟩) = 3
    ∧ (wordsLearnedStats "week" none ⟨2023, 3, 2⟩ 1 (C6Scenario 1 (toOrdinal ⟨2023, 3, 2⟩))).map
        (fun r => r.words_learned) = .ok 2
    ∧ (wordsLearnedStats "month" none ⟨2023, 3, 2⟩ 1 (C6Scenario 1 (toOrdinal ⟨2023, 3, 2⟩))).map
        (fun r => r.words_learned) = .ok 1 := by
  refine ⟨by decide, rfl, rfl⟩

end FWords
